import Mathlib

/-!
Verification of the Review-Bot repository (src/main.py) against its
natural-language specification.  The Python source is shallowly embedded:
pure helpers become Lean functions over `List Char` / `String`, the
stateful interaction handlers become functions from an explicit
environment (the outcomes of the external Discord calls and of the file
system) to a result record that carries the trace of externally visible
actions, the persisted records and the user-visible responses.
-/

/-! ## Content sanitizer (src/main.py lines 24-54) -/

/-- Constant `MAX_REVIEW_LENGTH = 1000` (line 24). -/
def MAX_REVIEW_LENGTH : Nat := 1000

/-- The four formatting characters removed by the chained
`content.replace(c, '')` calls on line 40: backtick, asterisk,
underscore, tilde. -/
def markdownChars : List Char := [Char.ofNat 96, '*', '_', '~']

/-- Python `str.strip()` whitespace for the ASCII range: space, tab,
newline, carriage return, vertical tab, form feed. -/
def pyWhitespace (c : Char) : Bool :=
  c = ' ' || c = '\t' || c = '\n' || c = '\r' || c = Char.ofNat 11 || c = Char.ofNat 12

/-- Python `str.strip()`: drop leading and trailing whitespace. -/
def pystrip (l : List Char) : List Char :=
  ((l.dropWhile pyWhitespace).reverse.dropWhile pyWhitespace).reverse

/-- Decide whether `needle` is a prefix of `hay` (character lists). -/
def isPrefixList : List Char → List Char → Bool
  | [], _ => true
  | _ :: _, [] => false
  | a :: as, b :: bs => a = b && isPrefixList as bs

/-- Decide whether `needle` occurs as a contiguous substring of `hay`,
the semantics of an unanchored literal `re.search`. -/
def containsSub (needle : List Char) : List Char → Bool
  | [] => isPrefixList needle []
  | c :: rest => isPrefixList needle (c :: rest) || containsSub needle rest

/-- Non-overlapping count of the two-character needle `a,b`, the
semantics of Python `str.count` for a two-character pattern. -/
def countSub2 (a b : Char) : List Char → Nat
  | [] => 0
  | [_] => 0
  | x :: y :: rest =>
      if x = a && y = b then countSub2 a b rest + 1
      else countSub2 a b (y :: rest)

/-- ASCII lowercasing of a character list, the effect of
`re.IGNORECASE` on the ASCII-only pattern literals used here. -/
def lowerList (l : List Char) : List Char := l.map Char.toLower

/-- Does the regex `<@&\d+>` match at the head of the list?  After the
literal `<@&`, maximal-munch on digits is equivalent to the regex
backtracking search because `>` is not a digit. -/
def roleMentionAt : List Char → Bool
  | '<' :: '@' :: '&' :: rest =>
      (!(rest.takeWhile Char.isDigit).isEmpty) &&
      (match rest.dropWhile Char.isDigit with
        | '>' :: _ => true
        | _ => false)
  | _ => false

/-- Search `re.search(r'<@&\d+>', raw)`: the role-mention pattern matches at
some position of the raw text. -/
def hasRoleMention : List Char → Bool
  | [] => false
  | c :: rest => roleMentionAt (c :: rest) || hasRoleMention rest

/-- Pattern `r'@everyone'` with IGNORECASE (line 26). -/
def patEveryone (raw : List Char) : Bool :=
  containsSub "@everyone".data (lowerList raw)

/-- Pattern `r'@here'` with IGNORECASE (line 27). -/
def patHere (raw : List Char) : Bool :=
  containsSub "@here".data (lowerList raw)

/-- Pattern `r'discord\.gg/'` with IGNORECASE (line 28). -/
def patInvite (raw : List Char) : Bool :=
  containsSub "discord.gg/".data (lowerList raw)

/-- Pattern `r'https?://bit\.ly/'` with IGNORECASE (line 29): the
optional `s` unrolls into two literal alternatives. -/
def patBitly (raw : List Char) : Bool :=
  containsSub "http://bit.ly/".data (lowerList raw) ||
  containsSub "https://bit.ly/".data (lowerList raw)

/-- Pattern `r'https?://tinyurl\.com/'` with IGNORECASE (line 30). -/
def patTinyurl (raw : List Char) : Bool :=
  containsSub "http://tinyurl.com/".data (lowerList raw) ||
  containsSub "https://tinyurl.com/".data (lowerList raw)

/-- Pattern `r'<@&\d+>'` (line 31); it contains no letters, so
IGNORECASE is immaterial and it runs on the raw text. -/
def patRoleMention (raw : List Char) : Bool := hasRoleMention raw

/-- The list `SUSPICIOUS_PATTERNS` (lines 25-32), each regex embedded as its
matching function. -/
def SUSPICIOUS_PATTERNS : List (List Char → Bool) :=
  [patEveryone, patHere, patInvite, patBitly, patTinyurl, patRoleMention]

/-- The for-loop on lines 44-47: set `is_suspicious` when some pattern
matches the raw content (break at the first hit is the boolean `any`). -/
def matchesSuspicious (raw : List Char) : Bool :=
  SUSPICIOUS_PATTERNS.any (fun p => p raw)

/-- Count `content.count('<@') + content.count('<#')` (line 50). -/
def mentionCount (raw : List Char) : Nat :=
  countSub2 '<' '@' raw + countSub2 '<' '#' raw

/-- Function `sanitize_content` (lines 34-54): strip the four markdown
characters, flag suspicion from the raw (pre-strip) text, truncate the
stripped text to `MAX_REVIEW_LENGTH`. -/
def sanitize_content (content : String) : String × Bool :=
  let sanitized := content.data.filter (fun c => !(markdownChars.contains c))
  let suspicious := matchesSuspicious content.data || decide (mentionCount content.data > 3)
  (String.mk (sanitized.take MAX_REVIEW_LENGTH), suspicious)

/-- The suspicion rule as the spec states it (spec section 4.3 and the
claim): the raw pre-strip text matches one of the listed fixed patterns
(broadcast mention, broadcast here, invite-link shortener, bit.ly or
tinyurl URL shortener, bulk role-mention token), or the raw text holds
more than 3 combined user/channel mention tokens (occurrences of the
token openers). -/
def suspiciousSpec (raw : String) : Bool :=
  containsSub "@everyone".data (lowerList raw.data) ||
  containsSub "@here".data (lowerList raw.data) ||
  containsSub "discord.gg/".data (lowerList raw.data) ||
  containsSub "http://bit.ly/".data (lowerList raw.data) ||
  containsSub "https://bit.ly/".data (lowerList raw.data) ||
  containsSub "http://tinyurl.com/".data (lowerList raw.data) ||
  containsSub "https://tinyurl.com/".data (lowerList raw.data) ||
  hasRoleMention raw.data ||
  decide (mentionCount raw.data > 3)

/-- Claim C5 (confirmed): for every raw input, `sanitize_content`
returns `suspicious = true` exactly when the raw pre-strip text matches
one of the fixed patterns or contains more than 3 combined user/channel
mention tokens; in particular with at most 3 mention tokens and no
listed pattern the flag is false. -/
theorem sanitize_suspicious_iff (s : String) :
    (sanitize_content s).2 = suspiciousSpec s := by
  simp [sanitize_content, suspiciousSpec, matchesSuspicious, SUSPICIOUS_PATTERNS,
    patEveryone, patHere, patInvite, patBitly, patTinyurl, patRoleMention,
    List.any_cons, List.any_nil, Bool.or_assoc]

example : (sanitize_content "hello @EVERYONE there").2 = true := by decide
example : (sanitize_content "just a normal review <@123> <#456>").2 = false := by decide
example : (sanitize_content "<@1> <@2> <#3> <@4> text").2 = true := by decide
example : (sanitize_content "role ping <@&99> only").2 = true := by decide
example : (sanitize_content "role ping <@&> none").2 = false := by decide
example : (sanitize_content "go to hTTps://bit.ly/x now").2 = true := by decide
example : (sanitize_content "a*b_c~d").1 = "abcd" := by decide

/-! ## Persisted data model (spec section 3, src/main.py lines 114-142, 500-602) -/

/-- One guild entry of `settings.json` (spec GuildConfig): the five
optional fields written by the `/settings` command handlers. -/
structure GuildConfig where
  review_channel : Option Nat := none
  testimonial_channel : Option Nat := none
  reviewable_role : Option Nat := none
  reward_role : Option Nat := none
  review_message_id : Option Nat := none
deriving DecidableEq

/-- One review entry of `review_backup.json` (spec ReviewRecord), as
written by `backup_review` lines 130-136. -/
structure BackupRecord where
  reviewer_id : Nat
  reviewed_id : Nat
  content : String
  timestamp : Nat
  created_at : Nat
deriving DecidableEq

/-- The settings store mapping, guild id to config (JSON object keyed
by `str(guild.id)`; ids modelled as `Nat`). -/
def SettingsMap : Type := List (Nat × GuildConfig)

/-- The backup store mapping, guild id to record-id-keyed reviews. -/
def BackupMap : Type := List (Nat × List (String × BackupRecord))

/-! ## Store loading (C7, src/main.py lines 64-78 and 89-103) -/

/-- What `json.load` produced when the file was readable and parsed. -/
inductive StoredJson (α : Type)
  | dict (m : α)
  | nonDict
deriving DecidableEq

/-- The state of an underlying store file, as far as `load_settings` /
`load_backup` can observe it: absent; unreadable (open or read raises
`IOError`); readable but not decodable as UTF-8, on which the read
inside `json.load` of the file opened with `encoding='utf-8'` raises
`UnicodeDecodeError` (a `ValueError` subclass, not an `IOError` and not
a `JSONDecodeError`); decodable but malformed JSON text (`json.load`
raises `JSONDecodeError`); or parsed JSON. -/
inductive FileState (α : Type)
  | missing
  | unreadable
  | undecodable
  | malformed
  | parsed (j : StoredJson α)
deriving DecidableEq

/-- The exception kinds the two loaders can see from the modelled file
operations. -/
inductive PyExc
  | jsonDecodeError
  | ioError
  | unicodeDecodeError
deriving DecidableEq

/-- The `try` body of `load_settings` (lines 66-75): early-return `{}`
when the file is absent, raise on unreadable, undecodable or malformed
content, return `{}` when the parsed JSON is not a dict, else the
mapping. -/
def load_settings_body (fs : FileState SettingsMap) : Except PyExc SettingsMap :=
  match fs with
  | .missing => .ok []
  | .unreadable => .error .ioError
  | .undecodable => .error .unicodeDecodeError
  | .malformed => .error .jsonDecodeError
  | .parsed (.dict m) => .ok m
  | .parsed .nonDict => .ok []

/-- Function `load_settings` (lines 64-78): the `except (json.JSONDecodeError,
IOError)` clause turns those two raised exceptions into `return {}`;
a raised `UnicodeDecodeError` matches neither caught type and
propagates to the caller. -/
def load_settings (fs : FileState SettingsMap) : Except PyExc SettingsMap :=
  match load_settings_body fs with
  | .ok m => .ok m
  | .error .jsonDecodeError => .ok []
  | .error .ioError => .ok []
  | .error .unicodeDecodeError => .error .unicodeDecodeError

/-- The `try` body of `load_backup` (lines 91-100), same structure as
the settings loader over the backup mapping. -/
def load_backup_body (fs : FileState BackupMap) : Except PyExc BackupMap :=
  match fs with
  | .missing => .ok []
  | .unreadable => .error .ioError
  | .undecodable => .error .unicodeDecodeError
  | .malformed => .error .jsonDecodeError
  | .parsed (.dict m) => .ok m
  | .parsed .nonDict => .ok []

/-- Function `load_backup` (lines 89-103): the same `except
(json.JSONDecodeError, IOError)` clause, which likewise lets a raised
`UnicodeDecodeError` escape. -/
def load_backup (fs : FileState BackupMap) : Except PyExc BackupMap :=
  match load_backup_body fs with
  | .ok m => .ok m
  | .error .jsonDecodeError => .ok []
  | .error .ioError => .ok []
  | .error .unicodeDecodeError => .error .unicodeDecodeError

/-- Claim C7 (code bug): on a missing file, a caught `IOError`,
malformed JSON text and parsed non-object JSON both loaders do return
the empty mapping; but on a readable store file whose bytes are not
valid UTF-8 the `UnicodeDecodeError` raised inside `json.load` is not
among the types of the `except (json.JSONDecodeError, IOError)` clause
and escapes both loaders to the caller, so the claimed "never raises"
fails on that unparseable file state. -/
theorem loads_raise_on_undecodable :
    load_settings FileState.undecodable = .error .unicodeDecodeError ∧
    load_backup FileState.undecodable = .error .unicodeDecodeError ∧
    load_settings FileState.missing = .ok [] ∧
    load_backup FileState.missing = .ok [] ∧
    load_settings FileState.unreadable = .ok [] ∧
    load_backup FileState.unreadable = .ok [] ∧
    load_settings FileState.malformed = .ok [] ∧
    load_backup FileState.malformed = .ok [] ∧
    load_settings (FileState.parsed .nonDict) = .ok [] ∧
    load_backup (FileState.parsed .nonDict) = .ok [] :=
  ⟨rfl, rfl, rfl, rfl, rfl, rfl, rfl, rfl, rfl, rfl⟩

/-! ## Backup append (src/main.py lines 105-142)

`save_backup` (lines 105-112) catches `IOError`/`TypeError` and
deliberately does not re-raise ("Don't want to break the review
process"), so a failed file write is invisible to `backup_review`,
which then still returns the freshly generated id.  None of the
operations inside `backup_review` itself (the never-raising
`load_backup`, dict updates, `uuid.uuid4`, `sanitize_content`,
`int(...)` on ints, `isoformat`, the never-raising `save_backup`) can
raise, so the `except` on lines 140-142 returning `None` is
unreachable for the behaviour modelled here. -/

/-- Function `backup_review` (lines 114-142): build the record (the content is
sanitized a second time on line 127), attempt the file write through
`save_backup` whose failure is swallowed, return the generated id.
`writeOk` is the outcome of the underlying file write; the returned
list holds the records actually persisted by this call. -/
def backup_review (writeOk : Bool) (newId : String)
    (reviewer_id reviewed_id : Nat) (review_content : String)
    (timestamp now : Nat) : Option String × List BackupRecord :=
  let record : BackupRecord :=
    { reviewer_id := reviewer_id
      reviewed_id := reviewed_id
      content := (sanitize_content review_content).1
      timestamp := timestamp
      created_at := now }
  (some newId, if writeOk then [record] else [])

/-! ## Review submission handler (C1-C4, C9; src/main.py lines 159-267) -/

/-- Outcome of the `interaction.user.add_roles` call (lines 235-241):
success, `discord.Forbidden`, or `discord.HTTPException`. -/
inductive GrantOutcome
  | ok
  | forbidden
  | httpError
deriving DecidableEq

/-- The externally visible actions of one submission, in the order the
handler performs them. -/
inductive Ev
  | backupAttempt
  | postAttempt (ok : Bool)
  | grantAttempt (ok : Bool)
deriving DecidableEq

/-- The reason a submission was rejected (the early ephemeral error
replies of `on_submit`). -/
inductive Rejection
  | contentEmpty
  | contentTooShort
  | targetGone
  | channelMissing
  | noSendPerm
  | sendFailed
deriving DecidableEq

/-- The role outcome folded into `role_message` (lines 226-241). -/
inductive RoleNote
  | noRole
  | roleGone
  | alreadyHave
  | awarded
  | grantForbidden
  | grantHttpFailed
deriving DecidableEq

/-- The environment of one `ReviewModal.on_submit` call: the raw modal
text and the outcomes of every external call the handler makes. -/
structure SubmitEnv where
  rawContent : String
  submitterId : Nat
  targetId : Nat
  /-- `interaction.guild.get_member(self.target_user.id)` resolves. -/
  targetInGuild : Bool
  /-- the underlying `review_backup.json` write succeeds. -/
  backupWriteOk : Bool
  /-- the `uuid.uuid4()` value. -/
  newId : String
  /-- `interaction.created_at`. -/
  interactionTs : Nat
  /-- wall clock at the backup write. -/
  nowTs : Nat
  /-- `interaction.guild.get_channel(testimonial_channel_id)` resolves. -/
  channelExists : Bool
  /-- the bot may send messages in the testimonial channel. -/
  canSend : Bool
  /-- `channel.send(embed=embed)` does not raise. -/
  sendOk : Bool
  /-- `self.reward_role_id` is truthy (line 227). -/
  rewardRoleConfigured : Bool
  /-- `interaction.guild.get_role(self.reward_role_id)` resolves. -/
  rewardRoleExists : Bool
  /-- `reward_role in interaction.user.roles` (line 232). -/
  submitterHasRole : Bool
  /-- outcome of `add_roles` when attempted. -/
  grant : GrantOutcome

/-- The result of one `on_submit` call: the action trace, the records
persisted to the backup store, the backup id named in the footer of the
publicly posted embed (if a post happened), whether the public post was
sent, the rejection reply (if any), the role note appended to the
ephemeral confirmation, and whether that success confirmation was
sent.  The ephemeral confirmation on line 243 is the fixed success text
plus `role_message`; it never contains a backup id. -/
structure SubmitResult where
  trace : List Ev
  records : List BackupRecord
  postedFooterId : Option String
  posted : Bool
  rejection : Option Rejection
  roleNote : RoleNote
  confirmed : Bool
deriving DecidableEq

/-- A result for the paths that stop before the backup attempt. -/
def rejectEarly (r : Rejection) : SubmitResult :=
  { trace := [], records := [], postedFooterId := none, posted := false,
    rejection := some r, roleNote := .noRole, confirmed := false }

/-- Handler `ReviewModal.on_submit` (lines 159-267).  Control flow: sanitize;
reject empty (line 163) then short (line 167) content; reject a target
no longer in the guild (line 174); call `backup_review` (line 178);
build the embed whose footer carries the returned id when present
(lines 210-213); reject a missing channel (line 216) or missing send
permission (line 220); `channel.send` (line 224), whose raise is caught
by the outer `except` and ends the handler; then the reward-role block
(lines 226-241) where `Forbidden`/`HTTPException` are caught locally
and only change `role_message`; finally the ephemeral confirmation
(line 243). -/
def on_submit (env : SubmitEnv) : SubmitResult :=
  let sanitized := (sanitize_content env.rawContent).1
  if (pystrip sanitized.data).isEmpty then rejectEarly .contentEmpty
  else if sanitized.length < 10 then rejectEarly .contentTooShort
  else if !env.targetInGuild then rejectEarly .targetGone
  else
    let br := backup_review env.backupWriteOk env.newId env.submitterId env.targetId
      sanitized env.interactionTs env.nowTs
    if !env.channelExists then
      { trace := [.backupAttempt], records := br.2, postedFooterId := none,
        posted := false, rejection := some .channelMissing, roleNote := .noRole,
        confirmed := false }
    else if !env.canSend then
      { trace := [.backupAttempt], records := br.2, postedFooterId := none,
        posted := false, rejection := some .noSendPerm, roleNote := .noRole,
        confirmed := false }
    else if !env.sendOk then
      { trace := [.backupAttempt, .postAttempt false], records := br.2,
        postedFooterId := none, posted := false, rejection := some .sendFailed,
        roleNote := .noRole, confirmed := false }
    else
      let rolePart : RoleNote × List Ev :=
        if !env.rewardRoleConfigured then (.noRole, [])
        else if !env.rewardRoleExists then (.roleGone, [])
        else if env.submitterHasRole then (.alreadyHave, [])
        else
          match env.grant with
          | .ok => (.awarded, [.grantAttempt true])
          | .forbidden => (.grantForbidden, [.grantAttempt false])
          | .httpError => (.grantHttpFailed, [.grantAttempt false])
      { trace := [.backupAttempt, .postAttempt true] ++ rolePart.2,
        records := br.2, postedFooterId := br.1, posted := true,
        rejection := none, roleNote := rolePart.1, confirmed := true }

/-! ## Selection step (C2; src/main.py lines 329-357) -/

/-- The environment of one `select_user` callback: the guild member ids
resolvable by `get_member`, the id carried by the select interaction,
and the clicking user. -/
structure SelectEnv where
  guildMemberIds : List Nat
  selectedId : Nat
  submitterId : Nat

/-- Outcome of the `select_user` callback. -/
inductive SelectOutcome
  | notFound
  | selfReview
  | modalOpened (targetId : Nat)
deriving DecidableEq

/-- Callback `UserSelectView.select_user` (lines 329-343): resolve the selected
id through `get_member` (an ephemeral error if it no longer resolves),
reject a self-review, otherwise open the review modal for the target. -/
def select_user (env : SelectEnv) : SelectOutcome :=
  if !env.guildMemberIds.contains env.selectedId then .notFound
  else if env.selectedId = env.submitterId then .selfReview
  else .modalOpened env.selectedId

/-- The empty result of a flow that never reaches the modal. -/
def noSubmission : SubmitResult :=
  { trace := [], records := [], postedFooterId := none, posted := false,
    rejection := none, roleNote := .noRole, confirmed := false }

/-- The composed selection-then-modal flow: the review modal is shown
only when `select_user` opens it, and the modal is submitted by the
same user it was sent to, reviewing the member resolved at selection. -/
def submission_flow (sel : SelectEnv) (env : SubmitEnv) : SubmitResult :=
  match select_user sel with
  | .modalOpened t => on_submit { env with targetId := t, submitterId := sel.submitterId }
  | _ => noSubmission

example :
    select_user { guildMemberIds := [5, 7], selectedId := 5, submitterId := 5 } =
      .selfReview := by decide
example :
    select_user { guildMemberIds := [5, 7], selectedId := 7, submitterId := 5 } =
      .modalOpened 7 := by decide

/-! ## Concrete submission environments -/

/-- A fully benign submission environment: valid content, target still
in the guild, backup write succeeds, channel present and writable, send
succeeds, no reward role configured. -/
def benignEnv : SubmitEnv :=
  { rawContent := "a genuinely helpful moderator", submitterId := 10, targetId := 11,
    targetInGuild := true, backupWriteOk := true, newId := "rid-1",
    interactionTs := 5, nowTs := 6, channelExists := true, canSend := true,
    sendOk := true, rewardRoleConfigured := false, rewardRoleExists := true,
    submitterHasRole := false, grant := .ok }

/-- Benign submission except that the testimonial channel no longer
resolves at posting time. -/
def envChannelGone : SubmitEnv := { benignEnv with channelExists := false }

/-- Benign submission except that the backup file write fails. -/
def envWriteFails : SubmitEnv := { benignEnv with backupWriteOk := false }

/-- Benign submission with content whose sanitized form is 10
characters long but only 3 characters after trimming whitespace. -/
def envPaddedContent : SubmitEnv := { benignEnv with rawContent := "abc       " }

/-- Benign submission with sanitized content shorter than 10. -/
def envShortContent : SubmitEnv := { benignEnv with rawContent := "ok" }

example : (on_submit benignEnv).posted = true := by decide
example : (on_submit benignEnv).records ≠ [] := by decide

/-! ## Claim C1: pipeline ordering and reachable partial-failure states -/

/-- Counterexample for claim C1 as stated: with a successful backup
write followed by a missing testimonial channel, the submission ends
backed up (one persisted record) but never posted, so the state "backed
up but not posted", which the claim says is unreachable, is reachable. -/
theorem backed_up_not_posted_reachable :
    (on_submit envChannelGone).records ≠ [] ∧
    (on_submit envChannelGone).posted = false ∧
    Ev.postAttempt true ∉ (on_submit envChannelGone).trace ∧
    Ev.postAttempt false ∉ (on_submit envChannelGone).trace := by decide

/-- Claim C1 (amended): the trace of every submission is one of the
prefixes backup-attempt, then post-attempt, then grant-attempt, so the
public post is never sent before the backup append was attempted and
the reward grant is never attempted before a successful public post;
the reachable partial-failure states are "posted but not backed up",
"posted but not rewarded" and also "backed up but not posted" (backup
precedes the post, which can still fail), and never "rewarded but not
posted". -/
theorem submit_trace_shapes (env : SubmitEnv) :
    (on_submit env).trace = [] ∨
    (on_submit env).trace = [.backupAttempt] ∨
    (on_submit env).trace = [.backupAttempt, .postAttempt false] ∨
    (on_submit env).trace = [.backupAttempt, .postAttempt true] ∨
    (on_submit env).trace = [.backupAttempt, .postAttempt true, .grantAttempt true] ∨
    (on_submit env).trace = [.backupAttempt, .postAttempt true, .grantAttempt false] := by
  simp only [on_submit, rejectEarly, backup_review]
  split_ifs <;> simp_all
  all_goals cases env.grant <;> simp

/-! ## Claim C3: backup append failure -/

/-- Claim C3 (code bug): when the backup file write fails the pipeline
does proceed (the post is sent) and zero records are persisted, but
because `save_backup` swallows the write error, `backup_review` still
returns the fresh id and the posted embed footer claims it — contrary
to the claim that no backup id is claimed when the append fails. -/
theorem backup_write_failure_still_claims_id :
    (on_submit envWriteFails).records = [] ∧
    (on_submit envWriteFails).posted = true ∧
    (on_submit envWriteFails).trace = [.backupAttempt, .postAttempt true] ∧
    (on_submit envWriteFails).postedFooterId = some "rid-1" := by decide

/-! ## Claim C4: content length validation -/

/-- Counterexample for claim C4 as stated: the sanitized content of
`envPaddedContent` is 10 characters long but only 3 characters after
trimming whitespace, so the claim requires rejection; the handler
checks the untrimmed length and accepts, and the review is posted. -/
theorem padded_short_content_accepted :
    (pystrip (sanitize_content envPaddedContent.rawContent).1.data).length < 10 ∧
    (pystrip (sanitize_content envPaddedContent.rawContent).1.data).isEmpty = false ∧
    (on_submit envPaddedContent).rejection = none ∧
    (on_submit envPaddedContent).posted = true := by decide

/-- Claim C4 (amended): a submission is rejected for its content
exactly when the sanitized content is empty after trimming whitespace,
or the sanitized content before trimming is shorter than 10 characters
(the length check does not trim); on such a rejection no backup record
is written and no public post is sent. -/
theorem content_validation (env : SubmitEnv) :
    (((on_submit env).rejection = some .contentEmpty ∨
        (on_submit env).rejection = some .contentTooShort) ↔
      ((pystrip (sanitize_content env.rawContent).1.data).isEmpty = true ∨
        (sanitize_content env.rawContent).1.length < 10)) ∧
    ((pystrip (sanitize_content env.rawContent).1.data).isEmpty = true ∨
        (sanitize_content env.rawContent).1.length < 10 →
      (on_submit env).trace = [] ∧ (on_submit env).records = [] ∧
        (on_submit env).posted = false) := by
  simp only [on_submit, rejectEarly, backup_review]
  split_ifs <;> simp_all

/-- Witness for the amended C4: two-character content is rejected
before any backup or post. -/
theorem content_validation_witness :
    (sanitize_content envShortContent.rawContent).1.length < 10 ∧
    (on_submit envShortContent).trace = [] ∧
    (on_submit envShortContent).records = [] ∧
    (on_submit envShortContent).posted = false := by
  have h : (pystrip (sanitize_content envShortContent.rawContent).1.data).isEmpty = true ∨
      (sanitize_content envShortContent.rawContent).1.length < 10 := Or.inr (by decide)
  exact ⟨by decide, (content_validation envShortContent).2 h⟩

/-! ## Claim C2: self-review rejection -/

/-- Every record `on_submit` persists carries the submitter as reviewer
and the modal target as reviewed. -/
theorem on_submit_record_ids (env : SubmitEnv) :
    ∀ r ∈ (on_submit env).records,
      r.reviewer_id = env.submitterId ∧ r.reviewed_id = env.targetId := by
  intro r hr
  simp only [on_submit, rejectEarly, backup_review] at hr
  split_ifs at hr <;> simp_all

/-- A modal is only opened for a target the selecting user resolves to
someone other than themself. -/
theorem select_user_modal_target (sel : SelectEnv) (t : Nat) :
    select_user sel = .modalOpened t → t = sel.selectedId ∧ sel.selectedId ≠ sel.submitterId := by
  intro h
  unfold select_user at h
  split_ifs at h with h1 h2
  · exact ⟨(SelectOutcome.modalOpened.injEq _ _ ▸ congrArg id h).symm ▸ rfl, h2⟩

/-- Claim C2 (confirmed): a selection of the submitter themself never
reaches the modal, so the attempt produces no backup attempt, no post
attempt and no record; and every record the composed flow persists has
distinct reviewer and reviewed ids. -/
theorem self_review_blocked (sel : SelectEnv) (env : SubmitEnv) :
    (sel.selectedId = sel.submitterId →
      (submission_flow sel env).trace = [] ∧ (submission_flow sel env).records = []) ∧
    ∀ r ∈ (submission_flow sel env).records, r.reviewer_id ≠ r.reviewed_id := by
  constructor
  · intro h
    unfold submission_flow
    cases hs : select_user sel with
    | notFound => simp [noSubmission]
    | selfReview => simp [noSubmission]
    | modalOpened t => exact absurd h (select_user_modal_target sel t hs).2
  · intro r hr
    unfold submission_flow at hr
    cases hs : select_user sel with
    | notFound => rw [hs] at hr; simp [noSubmission] at hr
    | selfReview => rw [hs] at hr; simp [noSubmission] at hr
    | modalOpened t =>
        rw [hs] at hr
        obtain ⟨h1, h2⟩ := on_submit_record_ids _ r hr
        obtain ⟨ht, hne⟩ := select_user_modal_target sel t hs
        simp only [h1, h2, ht]
        exact fun hh => hne (ht ▸ hh.symm)

/-- Witness for C2: a concrete self-selection yields an empty trace and
no record. -/
theorem self_review_blocked_witness :
    (submission_flow { guildMemberIds := [10, 11], selectedId := 10, submitterId := 10 }
      benignEnv).trace = [] ∧
    (submission_flow { guildMemberIds := [10, 11], selectedId := 10, submitterId := 10 }
      benignEnv).records = [] :=
  (self_review_blocked { guildMemberIds := [10, 11], selectedId := 10, submitterId := 10 }
    benignEnv).1 rfl

/-! ## Claim C9: reward-role grant policy -/

/-- Is an event a grant attempt (of either outcome)? -/
def isGrantEv : Ev → Bool
  | .grantAttempt _ => true
  | _ => false

/-- Benign submission with a reward role configured that the submitter
already holds. -/
def envAlreadyHolds : SubmitEnv :=
  { benignEnv with rewardRoleConfigured := true, submitterHasRole := true }

/-- Benign submission with a reward role configured whose grant raises
`discord.Forbidden`. -/
def envGrantForbidden : SubmitEnv :=
  { benignEnv with rewardRoleConfigured := true, grant := .forbidden }

/-- Claim C9 (confirmed): at most one grant attempt per submission;
never any grant attempt when the submitter already holds the role, and
in that case (reached with a configured, resolvable role after a
successful post) the confirmation reports the role as already held; a
failed grant leaves the already-sent post in place, the success
confirmation is still sent, and the failure only changes the appended
role note. -/
theorem reward_grant_policy (env : SubmitEnv) :
    (on_submit env).trace.countP (fun e => isGrantEv e) ≤ 1 ∧
    (env.submitterHasRole = true →
      (on_submit env).trace.countP (fun e => isGrantEv e) = 0) ∧
    (env.submitterHasRole = true → (on_submit env).posted = true →
      env.rewardRoleConfigured = true → env.rewardRoleExists = true →
      (on_submit env).roleNote = .alreadyHave) ∧
    (Ev.grantAttempt false ∈ (on_submit env).trace →
      (on_submit env).posted = true ∧ (on_submit env).confirmed = true ∧
      ((on_submit env).roleNote = .grantForbidden ∨
        (on_submit env).roleNote = .grantHttpFailed)) := by
  simp only [on_submit, rejectEarly, backup_review]
  split_ifs <;> simp_all [isGrantEv]
  all_goals cases env.grant <;> simp [isGrantEv]

/-- Witness for C9: with the role already held no grant attempt occurs
and the note reports it; with a `Forbidden` grant the post stands, the
confirmation is sent, and the note records the failure. -/
theorem reward_grant_policy_witness :
    ((on_submit envAlreadyHolds).trace.countP (fun e => isGrantEv e) = 0 ∧
      (on_submit envAlreadyHolds).roleNote = .alreadyHave) ∧
    ((on_submit envGrantForbidden).posted = true ∧
      (on_submit envGrantForbidden).confirmed = true ∧
      ((on_submit envGrantForbidden).roleNote = .grantForbidden ∨
        (on_submit envGrantForbidden).roleNote = .grantHttpFailed)) :=
  ⟨⟨(reward_grant_policy envAlreadyHolds).2.1 rfl,
    (reward_grant_policy envAlreadyHolds).2.2.1 rfl (by decide) rfl rfl⟩,
    (reward_grant_policy envGrantForbidden).2.2.2 (by decide)⟩

/-! ## Claim C6: reviewee pool construction (src/main.py lines 277-291) -/

/-- A guild member as the pool construction observes it: id, bot flag,
held roles, and the three permission flags of the heuristic. -/
structure Member where
  id : Nat
  bot : Bool
  roleIds : List Nat
  kick_members : Bool
  manage_messages : Bool
  manage_roles : Bool
deriving DecidableEq

/-- A guild: its member list (in iteration order), the bot member id
(`guild.me.id`), and the role ids `guild.get_role` resolves. -/
structure Guild where
  members : List Member
  meId : Nat
  liveRoleIds : List Nat

/-- Python truthiness of the optional role id in `if role_id:` (line
279): `None` and `0` are falsy. -/
def optTruthy : Option Nat → Bool
  | none => false
  | some n => n != 0

/-- Property `role.members`: the guild members holding the role, in guild member
order. -/
def roleMembers (g : Guild) (rid : Nat) : List Member :=
  g.members.filter (fun m => m.roleIds.contains rid)

/-- The pool built by `UserSelectView.__init__` (lines 277-291): with a
truthy configured role id, the role members with bots and the bot
itself filtered out (empty when `get_role` does not resolve); otherwise
the members passing the elevated-permission heuristic, again excluding
bots and the bot itself; in both cases truncated to the first 25. -/
def selectPool (g : Guild) (roleId : Option Nat) : List Member :=
  let ms :=
    if optTruthy roleId then
      if g.liveRoleIds.contains (roleId.getD 0) then
        (roleMembers g (roleId.getD 0)).filter (fun m => !m.bot && m.id != g.meId)
      else []
    else
      g.members.filter (fun m => !m.bot && m.id != g.meId &&
        (m.kick_members || m.manage_messages || m.manage_roles))
  ms.take 25

/-- The pool exactly as claim C6 states it: with the role id set, the
members holding the role; otherwise every member meeting the
elevated-permission heuristic excluding (only) the bot itself; first 25
entries. -/
def claimPool (g : Guild) (roleId : Option Nat) : List Member :=
  (match roleId with
    | some rid => roleMembers g rid
    | none => g.members.filter (fun m => m.id != g.meId &&
        (m.kick_members || m.manage_messages || m.manage_roles))).take 25

/-- The pool as amended: both branches exclude every bot account as
well as the bot itself, a set role id that does not resolve yields an
empty pool, and the result is the first 25 entries. -/
def claimPoolAmended (g : Guild) (roleId : Option Nat) : List Member :=
  (if optTruthy roleId then
    if g.liveRoleIds.contains (roleId.getD 0) then
      g.members.filter (fun m => m.roleIds.contains (roleId.getD 0) &&
        (!m.bot && m.id != g.meId))
    else []
  else
    g.members.filter (fun m => (m.kick_members || m.manage_messages || m.manage_roles) &&
      !m.bot && m.id != g.meId)).take 25

/-- A bot account holding the staff role. -/
def botMember : Member :=
  { id := 2, bot := true, roleIds := [7], kick_members := false,
    manage_messages := false, manage_roles := false }

/-- A guild whose staff role 7 is held by a bot account and a human. -/
def guildWithBot : Guild :=
  { members := [botMember,
      { id := 3, bot := false, roleIds := [7], kick_members := false,
        manage_messages := false, manage_roles := false }],
    meId := 1, liveRoleIds := [7] }

/-- Counterexample for claim C6 as stated: in `guildWithBot` the bot
account holds the configured role, so the claimed pool offers it, but
the code filters out every bot account and does not offer it. -/
theorem pool_omits_bot_role_holder :
    botMember ∈ claimPool guildWithBot (some 7) ∧
    botMember ∉ selectPool guildWithBot (some 7) := by decide

/-- The eligible role holders of the amended role branch. -/
def eligibleRoleHolders (g : Guild) (rid : Nat) : List Member :=
  (roleMembers g rid).filter (fun m => !m.bot && m.id != g.meId)

/-- Claim C6 (amended): the offered pool equals the claimed pool with
bot accounts excluded from both branches (and an unresolvable set role
giving an empty pool), truncated to the first 25 entries; consequently
a pool of 30 eligible role holders yields exactly 25 offered options. -/
theorem pool_matches_amended (g : Guild) (roleId : Option Nat) :
    selectPool g roleId = claimPoolAmended g roleId ∧
    (optTruthy roleId = true →
      g.liveRoleIds.contains (roleId.getD 0) = true →
      25 ≤ (eligibleRoleHolders g (roleId.getD 0)).length →
      (selectPool g roleId).length = 25) := by
  constructor
  · unfold selectPool claimPoolAmended roleMembers
    split_ifs <;> simp_all
    · congr 1
      exact List.filter_congr (fun m _ => by
        simp [Bool.and_comm, Bool.and_left_comm, Bool.and_assoc])
    · congr 1
      exact List.filter_congr (fun m _ => by
        simp [Bool.and_comm, Bool.and_left_comm, Bool.and_assoc])
  · intro h1 h2 h3
    unfold selectPool
    rw [if_pos h1, if_pos h2]
    rw [List.length_take]
    exact Nat.min_eq_left h3

/-- A guild with 30 eligible human holders of role 7. -/
def guild30 : Guild :=
  { members := (List.range 30).map (fun i =>
      { id := i + 2, bot := false, roleIds := [7], kick_members := false,
        manage_messages := false, manage_roles := false }),
    meId := 1, liveRoleIds := [7] }

/-- Witness for the amended C6: 30 eligible role holders produce
exactly 25 offered options. -/
theorem pool_matches_amended_witness :
    optTruthy (some 7) = true ∧
    25 ≤ (eligibleRoleHolders guild30 7).length ∧
    (selectPool guild30 (some 7)).length = 25 :=
  ⟨rfl, by decide,
    (pool_matches_amended guild30 (some 7)).2 rfl (by decide) (by decide)⟩

/-! ## Claim C8: set-reward-role hierarchy guard (src/main.py lines 580-602) -/

/-- A role as the settings command observes it: id, hierarchy position,
managed flag.  The guild default (everyone) role has `id = guildId`. -/
structure RoleInfo where
  id : Nat
  position : Nat
  managed : Bool
deriving DecidableEq

/-- The client library role ordering used by `role >=
interaction.guild.me.top_role`: the everyone role is the lowest, then
position, with equal positions broken by id (the larger id ranks
lower). -/
def roleLt (guildId : Nat) (a b : RoleInfo) : Bool :=
  if a.id = guildId then b.id != guildId
  else if b.id = guildId then false
  else if a.position < b.position then true
  else if a.position = b.position then b.id < a.id
  else false

/-- Comparison `role >= top` is the negation of `role < top` in that ordering. -/
def roleGe (guildId : Nat) (a b : RoleInfo) : Bool := !roleLt guildId a b

/-- The reply of the set-reward-role action. -/
inductive SetRoleResp
  | missingRole
  | rejectEveryone
  | rejectManaged
  | rejectTooHigh
  | success (roleId : Nat)
deriving DecidableEq

/-- Is the reply the success confirmation? -/
def setRoleOk : SetRoleResp → Bool
  | .success _ => true
  | _ => false

/-- Association-list lookup of a guild config (`settings.get`). -/
def cfgLookup : List (Nat × GuildConfig) → Nat → Option GuildConfig
  | [], _ => none
  | (k, v) :: rest, gid => if k = gid then some v else cfgLookup rest gid

/-- Association-list update (`settings[guild_id] = ...`). -/
def cfgUpdate : List (Nat × GuildConfig) → Nat → GuildConfig → List (Nat × GuildConfig)
  | [], gid, c => [(gid, c)]
  | (k, v) :: rest, gid, c =>
      if k = gid then (k, c) :: rest else (k, v) :: cfgUpdate rest gid c

/-- The `set_reward_role` branch of the `/settings` command (lines
580-602): reject a missing role argument, the everyone role, a managed
role, then a role at or above the bot top role; only past all four
guards is the config mutated and saved. -/
def setRewardRole (guildId : Nat) (botTop : RoleInfo) (role : Option RoleInfo)
    (settings : List (Nat × GuildConfig)) : List (Nat × GuildConfig) × SetRoleResp :=
  match role with
  | none => (settings, .missingRole)
  | some r =>
      if r.id = guildId then (settings, .rejectEveryone)
      else if r.managed then (settings, .rejectManaged)
      else if roleGe guildId r botTop then (settings, .rejectTooHigh)
      else
        let cfg := (cfgLookup settings guildId).getD {}
        (cfgUpdate settings guildId { cfg with reward_role := some r.id }, .success r.id)

/-- Claim C8 (confirmed): naming a role at or above the bot top role in
the role hierarchy leaves the stored settings entirely unchanged and
never succeeds; when the role is neither the everyone role nor managed,
the reply is precisely the hierarchy permission error. -/
theorem reward_role_hierarchy_guard (guildId : Nat) (botTop r : RoleInfo)
    (settings : List (Nat × GuildConfig)) (h : roleGe guildId r botTop = true) :
    (setRewardRole guildId botTop (some r) settings).1 = settings ∧
    setRoleOk (setRewardRole guildId botTop (some r) settings).2 = false ∧
    (r.id ≠ guildId → r.managed = false →
      (setRewardRole guildId botTop (some r) settings).2 = .rejectTooHigh) := by
  unfold setRewardRole
  dsimp only
  split_ifs <;> simp_all [setRoleOk]

/-- Witness for C8: a role one position above the bot top role is
rejected with the hierarchy error and the settings are untouched. -/
theorem reward_role_hierarchy_guard_witness :
    roleGe 1 { id := 50, position := 9, managed := false }
      { id := 40, position := 8, managed := false } = true ∧
    (setRewardRole 1 { id := 40, position := 8, managed := false }
      (some { id := 50, position := 9, managed := false })
      [(1, { testimonial_channel := some 4 })]).1 =
      [(1, { testimonial_channel := some 4 })] ∧
    (setRewardRole 1 { id := 40, position := 8, managed := false }
      (some { id := 50, position := 9, managed := false })
      [(1, { testimonial_channel := some 4 })]).2 = .rejectTooHigh :=
  ⟨by decide,
    (reward_role_hierarchy_guard 1 { id := 40, position := 8, managed := false }
      { id := 50, position := 9, managed := false }
      [(1, { testimonial_channel := some 4 })] (by decide)).1,
    (reward_role_hierarchy_guard 1 { id := 40, position := 8, managed := false }
      { id := 50, position := 9, managed := false }
      [(1, { testimonial_channel := some 4 })] (by decide)).2.2 (by decide) rfl⟩

/-! ## Claim C10: timed-out entry guard (src/main.py lines 371-387) -/

/-- Outcome of a click on the persistent entry-point button. -/
inductive ButtonOutcome
  | rejectedTimeout
  | selectOpened
deriving DecidableEq

/-- Handler `ReviewButtonView.review_button` (lines 371-387).  The guard is
`hasattr(interaction.user, 'timed_out') and interaction.user.timed_out`
(line 374): `hasTimedOutAttr` is whether the interacting user object
exposes an attribute named `timed_out`, and `timedOutVal` is the user
being timed out, which is what that attribute would report.  The
discord.py library this source is written against (it uses
`discord.app_commands`, `bot.tree`, `discord.ui.TextInput`) gives
`Member` and `User` objects no attribute named `timed_out` — a member
carries `timed_out_until` and the method `is_timed_out()` — so
`hasattr` returns `False` for every interacting user and
`hasTimedOutAttr = false` is the reachable case. -/
def review_button (hasTimedOutAttr timedOutVal : Bool) : ButtonOutcome :=
  if hasTimedOutAttr && timedOutVal then .rejectedTimeout else .selectOpened

/-- Claim C10 (code bug): evaluating the handler at the failing input —
a currently timed-out member clicking the button, whose user object
(discord.py) lacks the `timed_out` attribute — the guard passes and the
selection view opens, while the claim (and the guard's own comment)
says the click is rejected and selection is never reached.  Were the
attribute present, the guard would work. -/
theorem timed_out_guard_dead :
    review_button false true = .selectOpened ∧
    review_button true true = .rejectedTimeout := by decide
